import Mathlib

/-!
Shallow embedding of the GreenRoute dashboard (src/app.py).

Numeric values are modelled with ℚ; the decimal literals of the source
(0.411, 1609.34, 1.60934) are exact decimal fractions, so the rational
embedding computes the same values the spec describes up to
floating-point tolerance.

The SQLite table `sustainability_metrics` is modelled as a list of rows
(`DB`); `SELECT ... LIMIT 1` is `List.head?` and
`UPDATE ... WHERE id = 1` rewrites exactly the rows whose id is 1 (an
UPDATE whose WHERE clause matches no row is a no-op in SQLite, it does
not insert).  The `@st.cache_data` memoisation of `get_metrics_from_db`
is modelled as an `Option Metrics` field of the application state;
`get_metrics_from_db.clear()` sets it to `none`.
-/

namespace GreenRoute

/-- A row of the `sustainability_metrics` table (app.py lines 40-46). -/
structure MetricsRow where
  id : Nat
  total_distance : ℚ
  total_emissions_saved : ℚ
  deriving Repr, DecidableEq

/-- The `sustainability_metrics` table: a list of rows. -/
abbrev DB := List MetricsRow

/-- `SELECT ... FROM sustainability_metrics LIMIT 1`: the first row, if any. -/
def select_limit1 (db : DB) : Option MetricsRow :=
  db.head?

/-- `INSERT INTO sustainability_metrics (total_distance, total_emissions_saved)
VALUES (?, ?)`: SQLite assigns the fresh `INTEGER PRIMARY KEY` as one more
than the largest existing rowid (1 on an empty table). -/
def sqlite_insert (db : DB) (d e : ℚ) : DB :=
  db ++ [⟨(db.map MetricsRow.id).foldr max 0 + 1, d, e⟩]

/-- `UPDATE sustainability_metrics SET total_distance = ?,
total_emissions_saved = ? WHERE id = 1`: rewrites the rows whose id is 1
and leaves every other row (and a table with no such row) unchanged. -/
def update_where_id_1 (db : DB) (d e : ℚ) : DB :=
  db.map fun r =>
    if r.id = 1 then { r with total_distance := d, total_emissions_saved := e } else r

/-- `init_db` (app.py lines 36-53): create the table if needed and, when it
has no row, insert a single all-zero row. -/
def init_db (db : DB) : DB :=
  match select_limit1 db with
  | none => sqlite_insert db 0 0
  | some _ => db

/-- The dictionary returned by `get_metrics_from_db`. -/
structure Metrics where
  total_distance : ℚ
  total_emissions_saved : ℚ
  deriving Repr, DecidableEq

/-- The application state the metrics claims range over: the persisted
SQLite table together with the in-process `st.cache_data` cache of
`get_metrics_from_db`. -/
structure AppState where
  db : DB
  cache : Option Metrics
  deriving Repr, DecidableEq

/-- The uncached body of `get_metrics_from_db` (app.py lines 58-67): read
the first row and return its two columns, defaulting to zeros when the
table has no row. -/
def get_metrics_from_db_pure (db : DB) : Metrics :=
  match select_limit1 db with
  | none => ⟨0, 0⟩
  | some r => ⟨r.total_distance, r.total_emissions_saved⟩

/-- `get_metrics_from_db` under `@st.cache_data`: return the cached value
when one is present, otherwise read the database and cache the result. -/
def get_metrics_from_db (s : AppState) : Metrics × AppState :=
  match s.cache with
  | some m => (m, s)
  | none =>
      let m := get_metrics_from_db_pure s.db
      (m, { s with cache := some m })

/-- The SELECT phase of `update_metrics_in_db` (app.py lines 77-82): read
the current totals directly from the database, taking (0, 0) when the
table has no row. -/
def accumulate_read (db : DB) : ℚ × ℚ :=
  match select_limit1 db with
  | none => (0, 0)
  | some r => (r.total_distance, r.total_emissions_saved)

/-- The UPDATE phase of `update_metrics_in_db` (app.py lines 83-87): write
`current + delta` into the row with id 1. -/
def accumulate_write (db : DB) (cur : ℚ × ℚ) (new_distance new_emissions : ℚ) : DB :=
  update_where_id_1 db (cur.1 + new_distance) (cur.2 + new_emissions)

/-- `update_metrics_in_db` (app.py lines 69-89): read the current totals,
add the supplied deltas, write the sums back with
`UPDATE ... WHERE id = 1`, then clear the `get_metrics_from_db` cache. -/
def update_metrics_in_db (s : AppState) (new_distance new_emissions : ℚ) : AppState :=
  { db := accumulate_write s.db (accumulate_read s.db) new_distance new_emissions
    cache := none }

/-- `get_carbon_estimate` (app.py lines 163-168): `distance * 0.411`;
the `vehicle_type` parameter is accepted (defaulting to "car") and unused. -/
def get_carbon_estimate (distance : ℚ) (vehicle_type : String := "car") : ℚ :=
  distance * 0.411

/-- One entry of the JSON array Nominatim returns: the fields
`get_coordinates` reads. -/
structure GeocodeEntry where
  lat : ℚ
  lon : ℚ
  deriving Repr, DecidableEq

/-- The Nominatim HTTP response as `get_coordinates` sees it: a status
code and the decoded JSON array (`limit=1` merely bounds its length). -/
structure GeocodeResponse where
  status_code : Nat
  data : List GeocodeEntry
  deriving Repr, DecidableEq

/-- `get_coordinates` (app.py lines 126-136): on a 200 response with a
non-empty result list, return the first entry's latitude and longitude;
otherwise return `(None, None)`. -/
def get_coordinates (response : GeocodeResponse) : Option ℚ × Option ℚ :=
  if response.status_code = 200 then
    match response.data.head? with
    | some entry => (some entry.lat, some entry.lon)
    | none => (none, none)
  else (none, none)

/-- One route of an OSRM response: the fields `get_route_info` reads.
`geometry` is the GeoJSON LineString's coordinate list, in OSRM's
(longitude, latitude) axis order; a missing `geometry` or `coordinates`
key decodes to the empty list, as in
`route.get("geometry", {}).get("coordinates", [])`. -/
structure OSRMRoute where
  distance : ℚ
  duration : ℚ
  geometry : List (ℚ × ℚ)
  deriving Repr, DecidableEq

/-- The OSRM HTTP response as `get_route_info` sees it: a status code and
the decoded `routes` array. -/
structure OSRMResponse where
  status_code : Nat
  routes : List OSRMRoute
  deriving Repr, DecidableEq

/-- `get_route_info` (app.py lines 138-161): on a 200 response with at
least one route, convert meters to miles (divide by 1609.34) and seconds
to hours (divide by 3600), substitute the two-point
`[[start_lon, start_lat], [end_lon, end_lat]]` path when the returned
geometry has fewer than two points, and return the triple; otherwise
return `(None, None, None)`.  Coordinates arrive as (lat, lon) pairs and
the fallback path uses OSRM's (lon, lat) order, exactly as in the source. -/
def get_route_info (origin_coords destination_coords : ℚ × ℚ)
    (response : OSRMResponse) : Option (ℚ × ℚ × List (ℚ × ℚ)) :=
  let start_lon := origin_coords.2
  let start_lat := origin_coords.1
  let end_lon := destination_coords.2
  let end_lat := destination_coords.1
  if response.status_code = 200 then
    match response.routes.head? with
    | some route =>
        let distance := route.distance / 1609.34
        let duration := route.duration / 3600.0
        let geometry := route.geometry
        let geometry :=
          if geometry.length < 2 then
            [(start_lon, start_lat), (end_lon, end_lat)]
          else geometry
        some (distance, duration, geometry)
    | none => none
  else none

/-- Outcome of one "Simulate Route" button press. -/
inductive SimOutcome where
  | geocodeFailure
  | routeFailure
  | success (distance duration : ℚ) (geometry : List (ℚ × ℚ)) (emissions : ℚ)
  deriving Repr, DecidableEq

/-- Result of one "Simulate Route" button press: the user-visible outcome,
the application state afterwards, and whether the routing provider
(OSRM) was contacted. -/
structure SimResult where
  outcome : SimOutcome
  state : AppState
  routingCalled : Bool
  deriving Repr, DecidableEq

/-- The Route Optimization Simulator page body (app.py lines 331-374) for
non-empty origin and destination inputs: geocode both names; if either
result contains `None`, show the geocode error and stop (OSRM is not
contacted, nothing is written); otherwise call `get_route_info`, and on
success compute the carbon estimate, convert miles to kilometers
(multiply by 1.60934) and accumulate both into the metrics store.
The upstream HTTP responses are parameters: the page is a pure function
of them and of the application state. -/
def simulate_route (originResp destResp : GeocodeResponse)
    (routeResp : OSRMResponse) (s : AppState) : SimResult :=
  let origin_coords := get_coordinates originResp
  let destination_coords := get_coordinates destResp
  match origin_coords, destination_coords with
  | (some olat, some olon), (some dlat, some dlon) =>
      match get_route_info (olat, olon) (dlat, dlon) routeResp with
      | some (distance, duration, geometry) =>
          let emissions_estimated := get_carbon_estimate distance
          let km_distance := distance * 1.60934
          let s2 := update_metrics_in_db s km_distance emissions_estimated
          ⟨.success distance duration geometry emissions_estimated, s2, true⟩
      | none => ⟨.routeFailure, s, true⟩
  | _, _ => ⟨.geocodeFailure, s, false⟩

/-! ### Step-level model of `update_metrics_in_db`

For the failure claim the update is replayed at the granularity of its
statements.  A raised exception in the Python body simply skips every
later statement (there is no try/except in `update_metrics_in_db`), so a
run that fails at statement k is the fold of the first k statements.
SQLite's transactional behaviour supplies the rest: the UPDATE mutates
only the connection's open transaction (`pending`), and only `commit`
publishes it to the durable database; an uncommitted transaction is
rolled back when the connection goes away. -/

/-- The statements of `update_metrics_in_db`, in source order
(app.py lines 77-89): the SELECT of the current totals, the UPDATE, the
commit, closing the connection, and `get_metrics_from_db.clear()`. -/
inductive Stmt where
  | selectTotals
  | execUpdate
  | commitTxn
  | closeConn
  | clearCache
  deriving Repr, DecidableEq

/-- State of one run of `update_metrics_in_db`: the durable database, the
connection's in-transaction view of it, the totals fetched by the
SELECT, and the `get_metrics_from_db` cache. -/
structure ExecState where
  durable : DB
  pending : DB
  fetched : Option (ℚ × ℚ)
  cache : Option Metrics
  deriving Repr, DecidableEq

/-- Effect of one statement of `update_metrics_in_db` with deltas
`(nd, ne)`.  `closeConn` discards the uncommitted part of the
transaction (after a commit `pending = durable` already, so it is then a
no-op). -/
def stepStmt (nd ne : ℚ) (st : ExecState) : Stmt → ExecState
  | .selectTotals => { st with fetched := some (accumulate_read st.pending) }
  | .execUpdate =>
      let cur := st.fetched.getD (0, 0)
      { st with pending := accumulate_write st.pending cur nd ne }
  | .commitTxn => { st with durable := st.pending }
  | .closeConn => { st with pending := st.durable }
  | .clearCache => { st with cache := none }

/-- Run a prefix of the body of `update_metrics_in_db`: fold the executed
statements over the state at entry (connection freshly opened on the
durable database, nothing fetched yet). -/
def runStmts (nd ne : ℚ) (stmts : List Stmt) (db : DB) (cache : Option Metrics) : ExecState :=
  stmts.foldl (stepStmt nd ne) ⟨db, db, none, cache⟩

/-- The full statement list of `update_metrics_in_db`'s body. -/
def update_body : List Stmt :=
  [.selectTotals, .execUpdate, .commitTxn, .closeConn, .clearCache]

/-- The statement-level replay of the complete body agrees with
`update_metrics_in_db`: same durable database, same (cleared) cache. -/
theorem runStmts_update_body (nd ne : ℚ) (db : DB) (cache : Option Metrics) :
    (runStmts nd ne update_body db cache).durable =
      (update_metrics_in_db ⟨db, cache⟩ nd ne).db ∧
    (runStmts nd ne update_body db cache).cache =
      (update_metrics_in_db ⟨db, cache⟩ nd ne).cache := by
  constructor <;>
    simp [runStmts, update_body, stepStmt, update_metrics_in_db]

/-- Helper: a geocoding response with an empty result list or a non-200
status makes `get_coordinates` return `(None, None)`. -/
theorem get_coordinates_of_failure (r : GeocodeResponse)
    (h : r.data = [] ∨ r.status_code ≠ 200) :
    get_coordinates r = (none, none) := by
  rcases h with h | h <;> simp [get_coordinates, h]

/-- Helper: `get_coordinates` returns either `(None, None)` or a pair of
concrete coordinates; it never returns a half-defined pair. -/
theorem get_coordinates_cases (r : GeocodeResponse) :
    get_coordinates r = (none, none) ∨
      ∃ a b, get_coordinates r = (some a, some b) := by
  unfold get_coordinates
  by_cases h : r.status_code = 200
  · simp only [h, if_true]
    cases hd : r.data.head? with
    | none => exact Or.inl rfl
    | some entry => exact Or.inr ⟨entry.lat, entry.lon, rfl⟩
  · simp [h]

/-- C1: `update_metrics_in_db` is read-add-write, never a blind overwrite:
with the singleton row `⟨1, d0, e0⟩` persisted, an update with deltas
`(nd, ne)` persists the totals `(d0 + nd, e0 + ne)`; and in particular
two updates of (100 km, 40 kg) each, starting from the freshly
initialised all-zero record, leave cumulative totals (200, 80). -/
theorem C1_update_is_read_add_write (d0 e0 nd ne : ℚ) (c : Option Metrics) :
    get_metrics_from_db_pure
        ((update_metrics_in_db ⟨[⟨1, d0, e0⟩], c⟩ nd ne).db) =
      ⟨d0 + nd, e0 + ne⟩ ∧
    get_metrics_from_db_pure
        ((update_metrics_in_db
            (update_metrics_in_db ⟨init_db [], none⟩ 100 40) 100 40).db) =
      ⟨200, 80⟩ := by
  constructor
  · simp [update_metrics_in_db, accumulate_read, accumulate_write,
      update_where_id_1, select_limit1, get_metrics_from_db_pure]
  · simp [init_db, sqlite_insert, select_limit1, update_metrics_in_db,
      accumulate_read, accumulate_write, update_where_id_1,
      get_metrics_from_db_pure]
    norm_num

/-- C2: for every distance d ≥ 0 and any vehicle type, the carbon
estimate equals d * 0.411 (= d * 411/1000 exactly, in the rational
embedding of the source's floating-point literal). -/
theorem C2_carbon_estimate_linear (d : ℚ) (vehicle_type : String)
    (h : 0 ≤ d) :
    get_carbon_estimate d vehicle_type = d * 0.411 ∧
    get_carbon_estimate d vehicle_type = d * (411 / 1000) := by
  refine ⟨rfl, ?_⟩
  unfold get_carbon_estimate
  norm_num

/-- C2 witness: the estimate at distance 10 equals 10 * 0.411. -/
theorem C2_carbon_estimate_linear_witness :
    (0 : ℚ) ≤ 10 ∧
      get_carbon_estimate 10 "car" = 10 * 0.411 ∧
      get_carbon_estimate 10 "car" = 10 * (411 / 1000) :=
  ⟨by norm_num, C2_carbon_estimate_linear 10 "car" (by norm_num)⟩

/-- C3: after a successful `update_metrics_in_db` the cache is `none`
(cleared synchronously by the update itself, app.py line 89), so the
next `get_metrics_from_db` re-reads the database and observes the
updated totals, whatever stale snapshot `c` was cached before. -/
theorem C3_cache_invalidated_synchronously (d0 e0 nd ne : ℚ)
    (c : Option Metrics) :
    (update_metrics_in_db ⟨[⟨1, d0, e0⟩], c⟩ nd ne).cache = none ∧
    (get_metrics_from_db (update_metrics_in_db ⟨[⟨1, d0, e0⟩], c⟩ nd ne)).1 =
      ⟨d0 + nd, e0 + ne⟩ := by
  constructor
  · rfl
  · simp [update_metrics_in_db, accumulate_read, accumulate_write,
      update_where_id_1, select_limit1, get_metrics_from_db,
      get_metrics_from_db_pure]

/-- C4 counterexample: the claim that totals after concurrent
`accumulate` calls always equal the sum of all deltas is false of this
code.  The write path is the unguarded SELECT (`accumulate_read`) then
UPDATE (`accumulate_write`) of app.py lines 77-86, with no
compare-and-swap, serialisation or atomic increment; in the interleaving
where both callers read the initial all-zero row before either writes,
the final persisted totals are (100, 40), not the claimed
(100 + 100, 40 + 40). -/
theorem C4_counterexample :
    get_metrics_from_db_pure
        (accumulate_write
          (accumulate_write [⟨1, 0, 0⟩] (accumulate_read [⟨1, 0, 0⟩]) 100 40)
          (accumulate_read [⟨1, 0, 0⟩]) 100 40) =
      ⟨100, 40⟩ ∧
    (⟨100, 40⟩ : Metrics) ≠ ⟨100 + 100, 40 + 40⟩ := by
  constructor
  · simp [accumulate_read, accumulate_write, update_where_id_1,
      select_limit1, get_metrics_from_db_pure]
  · simp only [ne_eq, Metrics.mk.injEq, not_and]
    intro h
    norm_num at h

/-- C4 amended: because the write path is an unguarded read-modify-write,
two interleaved `accumulate` calls can lose an update: whenever both
callers read the row `⟨1, d0, e0⟩` before either writes, the second
write overwrites the first and the final totals equal the initial totals
plus only the second caller's deltas. -/
theorem C4_lost_update (d0 e0 d1 e1 d2 e2 : ℚ) :
    get_metrics_from_db_pure
        (accumulate_write
          (accumulate_write [⟨1, d0, e0⟩] (accumulate_read [⟨1, d0, e0⟩]) d1 e1)
          (accumulate_read [⟨1, d0, e0⟩]) d2 e2) =
      ⟨d0 + d2, e0 + e2⟩ := by
  simp [accumulate_read, accumulate_write, update_where_id_1,
    select_limit1, get_metrics_from_db_pure]

/-- C5: when the routing provider answers 200 with a route whose
geometry has fewer than two points (missing geometry decodes to `[]`),
`get_route_info` still succeeds: it returns the converted distance and
duration together with the two-point path holding exactly the origin and
the destination (each point in the provider's (lon, lat) axis order, as
everywhere in the source's geometry handling). -/
theorem C5_geometry_fallback (dist dur olat olon dlat dlon : ℚ)
    (g : List (ℚ × ℚ)) (rest : List OSRMRoute)
    (h : g.length < 2) :
    get_route_info (olat, olon) (dlat, dlon)
        ⟨200, ⟨dist, dur, g⟩ :: rest⟩ =
      some (dist / 1609.34, dur / 3600.0, [(olon, olat), (dlon, dlat)]) := by
  simp [get_route_info, h]

/-- C5 witness: a 200 response whose single route has empty geometry
falls back to the two-point origin-destination path. -/
theorem C5_geometry_fallback_witness :
    ([] : List (ℚ × ℚ)).length < 2 ∧
      get_route_info ((1 : ℚ), (2 : ℚ)) ((3 : ℚ), (4 : ℚ))
          ⟨200, [⟨1609.34, 7200, []⟩]⟩ =
        some ((1609.34 : ℚ) / 1609.34, (7200 : ℚ) / 3600.0, [(2, 1), (4, 3)]) :=
  ⟨by norm_num,
    C5_geometry_fallback 1609.34 7200 1 2 3 4 [] [] (by norm_num)⟩

/-- C6: when geocoding fails for the origin or for the destination
(empty result set or non-success response), the simulation reports the
geocode failure, the application state — and with it the metrics store —
is unchanged, and the routing provider is never contacted. -/
theorem C6_geocode_failure (originResp destResp : GeocodeResponse)
    (routeResp : OSRMResponse) (s : AppState)
    (h : (originResp.data = [] ∨ originResp.status_code ≠ 200) ∨
         (destResp.data = [] ∨ destResp.status_code ≠ 200)) :
    simulate_route originResp destResp routeResp s =
      ⟨.geocodeFailure, s, false⟩ := by
  rcases h with h | h
  · have ho := get_coordinates_of_failure originResp h
    rcases get_coordinates_cases destResp with hd | ⟨a, b, hd⟩ <;>
      simp [simulate_route, ho, hd]
  · have hd := get_coordinates_of_failure destResp h
    rcases get_coordinates_cases originResp with ho | ⟨a, b, ho⟩ <;>
      simp [simulate_route, ho, hd]

/-- C6 witness: an empty geocoding result for the origin yields the
geocode failure, an untouched state, and no routing call. -/
theorem C6_geocode_failure_witness :
    ((⟨200, []⟩ : GeocodeResponse).data = [] ∨
        (⟨200, []⟩ : GeocodeResponse).status_code ≠ 200) ∧
      simulate_route ⟨200, []⟩ ⟨200, [⟨34, -118⟩]⟩ ⟨200, []⟩
          ⟨[⟨1, 0, 0⟩], none⟩ =
        ⟨.geocodeFailure, ⟨[⟨1, 0, 0⟩], none⟩, false⟩ :=
  ⟨Or.inl rfl,
    C6_geocode_failure ⟨200, []⟩ ⟨200, [⟨34, -118⟩]⟩ ⟨200, []⟩
      ⟨[⟨1, 0, 0⟩], none⟩ (Or.inl (Or.inl rfl))⟩

/-- C7: evaluation of `update_metrics_in_db` at the failing input of the
claim.  With no persisted row, the code defaults the current totals to
(0, 0) and then issues `UPDATE ... WHERE id = 1`, which matches no row:
the table stays empty, no row holding the supplied deltas (100, 40) is
created, and the subsequent read observes (0, 0) — contradicting the
intent visible in the code's own `if row is None` branch and stated by
the spec ("create it with the supplied values as the initial totals"). -/
theorem C7_missing_row_not_created :
    update_metrics_in_db ⟨[], none⟩ 100 40 = ⟨[], none⟩ ∧
    (get_metrics_from_db (update_metrics_in_db ⟨[], none⟩ 100 40)).1 = ⟨0, 0⟩ ∧
    (⟨0, 0⟩ : Metrics) ≠ ⟨100, 40⟩ := by
  refine ⟨rfl, rfl, ?_⟩
  simp only [ne_eq, Metrics.mk.injEq, not_and]
  intro h
  norm_num

/-- C8: a persistence failure during `update_metrics_in_db` leaves the
durable totals unchanged and the cache intact.  The body has no
try/except, so an exception skips every later statement; the executed
statement lists are `[]` (store unreachable: connect or SELECT fails),
`[selectTotals]` (the UPDATE is rejected), and
`[selectTotals, execUpdate]` (the commit fails, the transaction is
rolled back) — in each, no commit publishes the pending write and
`get_metrics_from_db.clear()` (sequenced last) never runs. -/
theorem C8_persistence_failure_preserves_state (nd ne : ℚ) (db : DB)
    (c : Option Metrics) (stmts : List Stmt)
    (h : stmts = [] ∨ stmts = [.selectTotals] ∨
         stmts = [.selectTotals, .execUpdate]) :
    (runStmts nd ne stmts db c).durable = db ∧
    (runStmts nd ne stmts db c).cache = c := by
  rcases h with h | h | h <;> subst h <;>
    simp [runStmts, stepStmt]

/-- C8 witness: a write rejected after the SELECT leaves the persisted
row and the cached snapshot exactly as they were. -/
theorem C8_persistence_failure_preserves_state_witness :
    (([Stmt.selectTotals] : List Stmt) = [] ∨
        ([Stmt.selectTotals] : List Stmt) = [.selectTotals] ∨
        ([Stmt.selectTotals] : List Stmt) = [.selectTotals, .execUpdate]) ∧
      (runStmts 100 40 [Stmt.selectTotals] [⟨1, 5, 2⟩]
          (some ⟨5, 2⟩)).durable = [⟨1, 5, 2⟩] ∧
      (runStmts 100 40 [Stmt.selectTotals] [⟨1, 5, 2⟩]
          (some ⟨5, 2⟩)).cache = some ⟨5, 2⟩ :=
  ⟨Or.inr (Or.inl rfl),
    C8_persistence_failure_preserves_state 100 40 [⟨1, 5, 2⟩]
      (some ⟨5, 2⟩) [Stmt.selectTotals] (Or.inr (Or.inl rfl))⟩

/-- C9: `get_route_info` converts provider units by dividing meters by
1609.34 and seconds by 3600 for every successful route; in particular a
route of 1609.34 meters and 3600 seconds yields exactly 1 mile and
1 hour (well within the 1e-6 tolerance). -/
theorem C9_unit_conversion (dist dur olat olon dlat dlon : ℚ)
    (g : List (ℚ × ℚ)) (rest : List OSRMRoute) :
    (∃ geom, get_route_info (olat, olon) (dlat, dlon)
        ⟨200, ⟨dist, dur, g⟩ :: rest⟩ =
      some (dist / 1609.34, dur / 3600.0, geom)) ∧
    get_route_info (0, 0) (1, 1) ⟨200, [⟨1609.34, 3600, [(0, 0), (1, 1)]⟩]⟩ =
      some (1, 1, [(0, 0), (1, 1)]) := by
  constructor
  · by_cases h : g.length < 2
    · exact ⟨[(olon, olat), (dlon, dlat)], by simp [get_route_info, h]⟩
    · exact ⟨g, by simp [get_route_info, h]⟩
  · simp [get_route_info]
    norm_num

/-- C10: the carbon estimate is independent of the `vehicle_type`
argument: any two vehicle types give the same result for every
distance. -/
theorem C10_vehicle_type_ignored (d : ℚ) (v1 v2 : String) :
    get_carbon_estimate d v1 = get_carbon_estimate d v2 :=
  rfl

end GreenRoute
